import Mathlib

/-!
Verification of the Chain-of-Experts repository core against its
specification.  The development shallowly embeds:

* `src/experts/base_expert.py` — the `BaseExpert` class (construction,
  forward/backward prompt pipelines, textual representation);
* `src/baseline/standard.py` and `src/baseline/chain_of_thought.py` —
  the two baseline solver entry points;
* template rendering with named placeholders (the behaviour of
  `PromptTemplate.from_template` / `LLMChain.predict` on f-string style
  templates);
* `utils.extract_code_from_string`, modelled from the specification
  because `utils.py` is not among the provided source files.

The text-completion backend is treated as an opaque function from
requests to response strings; every solver/pipeline operation returns,
alongside its result, the list of requests it dispatched, so that
"exactly one outbound call" and "no call was made" are provable
statements.
-/

set_option maxRecDepth 10000

/-- A Python attribute value as far as the expert construction cares:
either `None` or a string.  `src/experts/base_expert.py` reads the
class-level attributes `ROLE_DESCRIPTION`, `FORWARD_TASK` and
`BACKWARD_TASK`, which a concrete subclass may set to a string, set to
`None`, or leave undefined (the undefined case is an absent `Option`
at the use site). -/
inductive PyVal where
  | vNone : PyVal
  | vStr : String → PyVal
deriving DecidableEq

/-- Errors surfaced by the embedded code.  `attributeError`, `typeError`
and `keyError` are the exceptions the Python source actually raises;
`capabilityError` and `templateError` are the names the specification
gives to invoking an unconfigured backward pipeline and to a placeholder
mismatch at render time. -/
inductive PyError where
  | attributeError : String → PyError
  | typeError : PyError
  | keyError : String → PyError
  | capabilityError : PyError
  | templateError : PyError
deriving DecidableEq

/-- First-match lookup of a key in an association list, the embedding of
a Python keyword-argument mapping / dict access. -/
def lookupBind (binds : List (String × String)) (k : String) : Option String :=
  match binds with
  | [] => none
  | (k', v) :: rest => if k' = k then some v else lookupBind rest k

/-- One pass over a template, collecting placeholder names.  The first
argument is `none` outside a placeholder and `some acc` while scanning a
placeholder body whose characters so far are `acc`. -/
def scanAux : Option (List Char) → List Char → List String
  | _, [] => []
  | none, c :: rest =>
    if c = '\x7b' then scanAux (some []) rest else scanAux none rest
  | some acc, c :: rest =>
    if c = '\x7d' then String.mk acc :: scanAux none rest
    else scanAux (some (acc ++ [c])) rest

/-- The placeholder names of a template string, in order of occurrence. -/
def placeholders (t : String) : List String := scanAux none t.data

/-- Checks that every opened placeholder is closed before the template
ends.  The `Bool` argument records whether the scan is currently inside
a placeholder. -/
def bracesOk : Bool → List Char → Bool
  | false, [] => true
  | true, [] => false
  | false, c :: rest =>
    if c = '\x7b' then bracesOk true rest else bracesOk false rest
  | true, c :: rest =>
    if c = '\x7d' then bracesOk false rest else bracesOk true rest

/-- One pass over a template, substituting placeholder values.  Returns
`none` when a placeholder has no binding (Python raises `KeyError` from
`str.format`) or is never closed.  The first argument is as in
`scanAux`. -/
def renderAux (binds : List (String × String)) :
    Option (List Char) → List Char → Option (List Char)
  | none, [] => some []
  | some _, [] => none
  | none, c :: rest =>
    if c = '\x7b' then renderAux binds (some []) rest
    else Option.map (fun t => c :: t) (renderAux binds none rest)
  | some acc, c :: rest =>
    if c = '\x7d' then
      match lookupBind binds (String.mk acc) with
      | some v => Option.map (fun t => v.data ++ t) (renderAux binds none rest)
      | none => none
    else renderAux binds (some (acc ++ [c])) rest

/-- Renders a template against a binding list: the behaviour of filling
an f-string style `PromptTemplate` with keyword arguments. -/
def renderTemplate (t : String) (binds : List (String × String)) : Option String :=
  Option.map String.mk (renderAux binds none t.data)

/-- The three-backtick fence delimiting a code block. -/
def fenceChars : List Char := ['\x60', '\x60', '\x60']

/-- Splits a character list at the first triple-backtick fence: returns
the text before the fence and the text after it, or `none` when no fence
occurs. -/
def splitOnFence : List Char → Option (List Char × List Char)
  | [] => none
  | c :: rest =>
    if fenceChars.isPrefixOf (c :: rest) then some ([], rest.drop 2)
    else Option.map (fun p => (c :: p.1, p.2)) (splitOnFence rest)

/-- Drops the (possibly empty) language-tag line that follows the
opening fence of a code block: everything up to and including the first
newline, when one exists. -/
def dropLangTagLine (cs : List Char) : List Char :=
  if cs.contains '\n' then (cs.dropWhile (fun c => c ≠ '\n')).drop 1 else cs

/-- Modelled from the spec: `utils.extract_code_from_string` is imported
by both baseline solvers but `utils.py` is not among the provided source
files.  Per the specification: locate a fenced code block (a substring
delimited by triple-backtick markers, optionally annotated with a
language tag) and return its inner text, whitespace-trimmed; if no
fenced block is found, return the full response unchanged. -/
def extract_code_from_string (s : String) : String :=
  match splitOnFence s.data with
  | none => s
  | some (_, afterOpen) =>
    match splitOnFence afterOpen with
    | none => s
    | some (inner, _) => (String.mk (dropLangTagLine inner)).trim

/-- A string contains a triple-backtick-delimited block: some text, an
opening fence, the block body, a closing fence, and trailing text. -/
def HasFencedBlock (s : String) : Prop :=
  ∃ a b c : List Char, s.data = a ++ fenceChars ++ b ++ fenceChars ++ c

/-- A string contains no triple-backtick marker at all (a bare code
string with no fences). -/
def FenceFree (s : String) : Prop := ¬ fenceChars <:+: s.data

/-- A request to the text-completion backend: the model identifier, the
sampling temperature and the fully rendered prompt. -/
structure LLMRequest where
  model : String
  temperature : Nat
  prompt : String
deriving DecidableEq

/-- The opaque text-completion backend: maps a request to the textual
response.  Treated as an external collaborator. -/
abbrev Backend := LLMRequest → String

/-- The backend client as constructed in the source: a model identifier
together with the fixed sampling temperature (always `0` at every
construction site). -/
structure ChatOpenAI where
  model : String
  temperature : Nat
deriving DecidableEq

/-- A prompt template object; `from_template` wraps the template
string. -/
structure PromptTemplate where
  template : String
deriving DecidableEq

def PromptTemplate.from_template (t : String) : PromptTemplate := ⟨t⟩

/-- A compiled pipeline: a backend client paired with a prompt
template. -/
structure LLMChain where
  llm : ChatOpenAI
  prompt : PromptTemplate
deriving DecidableEq

/-- Dispatching a chain: render the template with the given keyword
bindings; on success issue exactly one request at the chain's model and
temperature and return the response, on a placeholder mismatch fail with
`templateError` having issued no request.  The second component lists
the requests dispatched. -/
def LLMChain.predict (chain : LLMChain) (binds : List (String × String))
    (backend : Backend) : Except PyError String × List LLMRequest :=
  match renderTemplate chain.prompt.template binds with
  | none => (.error .templateError, [])
  | some rendered =>
    let req : LLMRequest := ⟨chain.llm.model, chain.llm.temperature, rendered⟩
    (.ok (backend req), [req])

/-- The class-level attributes a concrete `BaseExpert` subclass
supplies: `ROLE_DESCRIPTION`, `FORWARD_TASK` and optionally
`BACKWARD_TASK`.  An absent attribute is `none`; an attribute set to
Python `None` is `some PyVal.vNone`. -/
structure ExpertSubclass where
  ROLE_DESCRIPTION : Option PyVal
  FORWARD_TASK : Option PyVal
  BACKWARD_TASK : Option PyVal
deriving DecidableEq

/-- The state of a constructed `BaseExpert` (`src/experts/base_expert.py`,
`__init__`): identifying fields, the backend client built at temperature
0, the concatenated forward prompt template and its chain, and — exactly
when the subclass has a `BACKWARD_TASK` attribute — the backward prompt
template and chain. -/
structure BaseExpert where
  name : String
  description : String
  model : String
  llm : ChatOpenAI
  forward_prompt_template : String
  forward_chain : LLMChain
  backward_prompt_template : Option String
  backward_chain : Option LLMChain
deriving DecidableEq

/-- Construction of a `BaseExpert` (`BaseExpert.__init__`).  The Python
code evaluates `self.ROLE_DESCRIPTION + '\n' + self.FORWARD_TASK`
left-to-right: a missing attribute raises `AttributeError` and an
attribute set to `None` raises `TypeError` at the concatenation, in
source order.  The backward pipeline is built only under
`hasattr(self, 'BACKWARD_TASK')`; a `BACKWARD_TASK` present but equal to
`None` passes that test and then fails the concatenation. -/
def mkBaseExpert (cls : ExpertSubclass) (name description model : String) :
    Except PyError BaseExpert :=
  match cls.ROLE_DESCRIPTION with
  | none => .error (.attributeError "ROLE_DESCRIPTION")
  | some .vNone => .error .typeError
  | some (.vStr role) =>
    match cls.FORWARD_TASK with
    | none => .error (.attributeError "FORWARD_TASK")
    | some .vNone => .error .typeError
    | some (.vStr fwd) =>
      let llm : ChatOpenAI := ⟨model, 0⟩
      let fpt : String := role ++ "\n" ++ fwd
      let fchain : LLMChain := ⟨llm, PromptTemplate.from_template fpt⟩
      match cls.BACKWARD_TASK with
      | none =>
        .ok ⟨name, description, model, llm, fpt, fchain, none, none⟩
      | some .vNone => .error .typeError
      | some (.vStr bwd) =>
        let bpt : String := role ++ "\n" ++ bwd
        .ok ⟨name, description, model, llm, fpt, fchain, some bpt,
          some ⟨llm, PromptTemplate.from_template bpt⟩⟩

/-- Modelled from the spec: the concrete expert subclasses (the
repository files under `experts/` other than `base_expert.py`, which are
not among the provided sources) implement `forward` by dispatching the
forward chain on the call's keyword inputs; `src/experts/base_expert.py`
only declares `forward` as a stub.  Per the specification: renders the
forward pipeline's template with the inputs, dispatches one request to
the backend, returns the raw textual response.  The returned expert
state expresses that the call leaves the unit unchanged. -/
def BaseExpert.forward (e : BaseExpert) (binds : List (String × String))
    (backend : Backend) :
    (Except PyError String × List LLMRequest) × BaseExpert :=
  (e.forward_chain.predict binds backend, e)

/-- Modelled from the spec: the concrete expert subclasses implementing
`backward` are not among the provided sources; `src/experts/base_expert.py`
only declares `backward` as a stub.  Per the specification: same
contract as `forward` using the backward pipeline, failing with
`CapabilityError` when no backward pipeline was configured (in which
case no request is dispatched). -/
def BaseExpert.backward (e : BaseExpert) (binds : List (String × String))
    (backend : Backend) :
    (Except PyError String × List LLMRequest) × BaseExpert :=
  match e.backward_chain with
  | none => ((.error .capabilityError, []), e)
  | some chain => (chain.predict binds backend, e)

/-- The textual representation (`BaseExpert.__str__`):
`f'{name}: {description}'`.  The returned expert state expresses that
the call leaves the unit unchanged. -/
def BaseExpert.str (e : BaseExpert) : String × BaseExpert :=
  (e.name ++ ": " ++ e.description, e)

namespace standard

/-- The fixed template of `src/baseline/standard.py` (`prompt_template`
inside `solve`), transcribed verbatim; its single placeholder is
`problem`. -/
def prompt_template : String :=
  "You are a Python programmer in the field of operations research and optimization. Your proficiency in utilizing third-party libraries such as Gurobi is essential. In addition to your expertise in Gurobi, it would be great if you could also provide some background in related libraries or tools, like NumPy, SciPy, or PuLP.\nYou are given a specific problem. You aim to develop an efficient Python program that addresses the given problem.\nNow the origin problem is as follow:\n{problem}\nGive your Python code directly."

/-- The keyword bindings of the call `llm_chain.predict(problem=problem)`. -/
def solveBinds (problem : String) : List (String × String) :=
  [("problem", problem)]

/-- `solve` of `src/baseline/standard.py`: build the client at
temperature 0, compile the fixed template into a chain, dispatch it on
the problem text, and return the code-extracted substring of the
answer. -/
def solve (problem : String) (model_name : String) (backend : Backend) :
    Except PyError String × List LLMRequest :=
  let llm : ChatOpenAI := ⟨model_name, 0⟩
  let llm_chain : LLMChain := ⟨llm, PromptTemplate.from_template prompt_template⟩
  match llm_chain.predict (solveBinds problem) backend with
  | (.ok answer, reqs) => (.ok (extract_code_from_string answer), reqs)
  | (.error e, reqs) => (.error e, reqs)

end standard

namespace chain_of_thought

/-- The fixed template of `src/baseline/chain_of_thought.py`
(`prompt_template` inside `solve`), transcribed verbatim; its
placeholders are `problem_description` and `code_example`. -/
def prompt_template : String :=
  "You are a Python programmer in the field of operations research and optimization. Your proficiency in utilizing third-party libraries such as Gurobi is essential. In addition to your expertise in Gurobi, it would be great if you could also provide some background in related libraries or tools, like NumPy, SciPy, or PuLP.\nYou are given a specific problem. You aim to develop an efficient Python program that addresses the given problem.\nNow the origin problem is as follow:\n{problem_description}\nLet\x27s analyse the problem step by step, and then give your Python code.\nHere is a starter code:\n{code_example}"

/-- The keyword bindings of the call
`llm_chain.predict(problem_description=..., code_example=...)`. -/
def solveBinds (problem_description code_example : String) :
    List (String × String) :=
  [("problem_description", problem_description),
   ("code_example", code_example)]

/-- Subscript access `problem_data[k]` on the input mapping: `KeyError`
when the key is absent. -/
def dictGet (problem_data : List (String × String)) (k : String) :
    Except PyError String :=
  match lookupBind problem_data k with
  | some v => .ok v
  | none => .error (.keyError k)

/-- `solve` of `src/baseline/chain_of_thought.py`: read
`problem_data['description']` and `problem_data['code_example']` (in
that order, before any client is built), then build the client at
temperature 0, compile the fixed template, dispatch it, and return the
raw answer without code extraction. -/
def solve (problem_data : List (String × String)) (model_name : String)
    (backend : Backend) : Except PyError String × List LLMRequest :=
  match dictGet problem_data "description" with
  | .error e => (.error e, [])
  | .ok problem_description =>
    match dictGet problem_data "code_example" with
    | .error e => (.error e, [])
    | .ok code_example =>
      let llm : ChatOpenAI := ⟨model_name, 0⟩
      let llm_chain : LLMChain := ⟨llm, PromptTemplate.from_template prompt_template⟩
      llm_chain.predict (solveBinds problem_description code_example) backend

end chain_of_thought

/-- The rendered standard-baseline prompt for a given problem text. -/
def rStandard (problem : String) : String :=
  (renderTemplate standard.prompt_template (standard.solveBinds problem)).getD ""

/-- The rendered chain-of-thought prompt for a given description and
starter code. -/
def rCot (problem_description code_example : String) : String :=
  (renderTemplate chain_of_thought.prompt_template
    (chain_of_thought.solveBinds problem_description code_example)).getD ""

/-- Rendering succeeds whenever the template is brace-balanced and every
scanned placeholder has a binding. -/
theorem renderAux_isSome (cs : List Char) :
    ∀ (mode : Option (List Char)) (binds : List (String × String)),
      bracesOk mode.isSome cs = true →
      (∀ nm ∈ scanAux mode cs, (lookupBind binds nm).isSome = true) →
      (renderAux binds mode cs).isSome = true := by
  induction cs with
  | nil =>
    intro mode binds hb _
    cases mode with
    | none => simp [renderAux]
    | some acc => simp [bracesOk] at hb
  | cons c rest ih =>
    intro mode binds hb hcov
    cases mode with
    | none =>
      by_cases hc : c = '\x7b'
      · simp only [renderAux, if_pos hc]
        exact ih (some []) binds
          (by simpa [bracesOk, hc] using hb)
          (by simpa [scanAux, hc] using hcov)
      · simp only [renderAux, if_neg hc, Option.isSome_map']
        exact ih none binds
          (by simpa [bracesOk, hc] using hb)
          (by simpa [scanAux, hc] using hcov)
    | some acc =>
      by_cases hc : c = '\x7d'
      · have hmem : String.mk acc ∈ scanAux (some acc) (c :: rest) := by
          simp [scanAux, hc]
        obtain ⟨v, hv⟩ := Option.isSome_iff_exists.mp (hcov _ hmem)
        simp only [renderAux, if_pos hc, hv, Option.isSome_map']
        exact ih none binds
          (by simpa [bracesOk, hc] using hb)
          (by
            intro nm hnm
            exact hcov nm (by simp [scanAux, hc, hnm]))
      · simp only [renderAux, if_neg hc]
        exact ih (some (acc ++ [c])) binds
          (by simpa [bracesOk, hc] using hb)
          (by simpa [scanAux, hc] using hcov)

/-- The standard-baseline template renders successfully against the
bindings its `solve` supplies, for every problem text. -/
theorem renderStandard_eq (problem : String) :
    renderTemplate standard.prompt_template (standard.solveBinds problem) =
      some (rStandard problem) := by
  have hsome : (renderAux (standard.solveBinds problem) none
      standard.prompt_template.data).isSome = true := by
    apply renderAux_isSome
    · decide
    · intro nm hnm
      have hscan : scanAux none standard.prompt_template.data = ["problem"] := by
        decide
      rw [hscan] at hnm
      simp only [List.mem_singleton] at hnm
      subst hnm
      simp [standard.solveBinds, lookupBind]
  cases h : renderAux (standard.solveBinds problem) none
      standard.prompt_template.data with
  | none => rw [h] at hsome; simp at hsome
  | some l => simp [rStandard, renderTemplate, h]

/-- The chain-of-thought template renders successfully against the
bindings its `solve` supplies, for every description and starter
code. -/
theorem renderCot_eq (problem_description code_example : String) :
    renderTemplate chain_of_thought.prompt_template
        (chain_of_thought.solveBinds problem_description code_example) =
      some (rCot problem_description code_example) := by
  have hsome : (renderAux
      (chain_of_thought.solveBinds problem_description code_example) none
      chain_of_thought.prompt_template.data).isSome = true := by
    apply renderAux_isSome
    · decide
    · intro nm hnm
      have hscan : scanAux none chain_of_thought.prompt_template.data =
          ["problem_description", "code_example"] := by
        decide
      rw [hscan] at hnm
      simp only [List.mem_cons, List.not_mem_nil, or_false] at hnm
      rcases hnm with rfl | rfl
      · simp [chain_of_thought.solveBinds, lookupBind]
      · simp [chain_of_thought.solveBinds, lookupBind]
  cases h : renderAux
      (chain_of_thought.solveBinds problem_description code_example) none
      chain_of_thought.prompt_template.data with
  | none => rw [h] at hsome; simp at hsome
  | some l => simp [rCot, renderTemplate, h]

/-- Inversion of a successful construction: the subclass supplied string
`ROLE_DESCRIPTION` and `FORWARD_TASK` attributes, every field of the
resulting expert is determined, and the backward pipeline is present
exactly in the `BACKWARD_TASK` branch taken. -/
theorem mkBaseExpert_inv (cls : ExpertSubclass) (n d m : String)
    (e : BaseExpert) (hmk : mkBaseExpert cls n d m = .ok e) :
    ∃ role fwd,
      cls.ROLE_DESCRIPTION = some (.vStr role) ∧
      cls.FORWARD_TASK = some (.vStr fwd) ∧
      e.name = n ∧ e.description = d ∧ e.model = m ∧
      e.llm = ⟨m, 0⟩ ∧
      e.forward_prompt_template = role ++ "\n" ++ fwd ∧
      e.forward_chain = ⟨⟨m, 0⟩, ⟨role ++ "\n" ++ fwd⟩⟩ ∧
      ((cls.BACKWARD_TASK = none ∧ e.backward_prompt_template = none ∧
          e.backward_chain = none) ∨
        (∃ bwd, cls.BACKWARD_TASK = some (.vStr bwd) ∧
          e.backward_prompt_template = some (role ++ "\n" ++ bwd) ∧
          e.backward_chain = some ⟨⟨m, 0⟩, ⟨role ++ "\n" ++ bwd⟩⟩)) := by
  rcases hR : cls.ROLE_DESCRIPTION with _ | vR
  · simp [mkBaseExpert, hR] at hmk
  rcases vR with _ | role
  · simp [mkBaseExpert, hR] at hmk
  rcases hF : cls.FORWARD_TASK with _ | vF
  · simp [mkBaseExpert, hR, hF] at hmk
  rcases vF with _ | fwd
  · simp [mkBaseExpert, hR, hF] at hmk
  rcases hB : cls.BACKWARD_TASK with _ | vB
  · simp only [mkBaseExpert, hR, hF, hB, Except.ok.injEq] at hmk
    refine ⟨role, fwd, rfl, rfl, ?_⟩
    rw [← hmk]
    simp [PromptTemplate.from_template]
  rcases vB with _ | bwd
  · simp [mkBaseExpert, hR, hF, hB] at hmk
  · simp only [mkBaseExpert, hR, hF, hB, Except.ok.injEq] at hmk
    refine ⟨role, fwd, rfl, rfl, ?_⟩
    rw [← hmk]
    simp [PromptTemplate.from_template]

/-- Soundness of the fence scanner: a successful split decomposes the
input around the first fence. -/
theorem splitOnFence_sound :
    ∀ (cs pre post : List Char), splitOnFence cs = some (pre, post) →
      cs = pre ++ fenceChars ++ post := by
  intro cs
  induction cs with
  | nil => intro pre post h; simp [splitOnFence] at h
  | cons c rest ih =>
    intro pre post h
    by_cases hp : fenceChars.isPrefixOf (c :: rest)
    · simp only [splitOnFence, if_pos hp, Option.some.injEq, Prod.mk.injEq] at h
      obtain ⟨h1, h2⟩ := h
      subst h1
      subst h2
      have hpre : fenceChars <+: (c :: rest) :=
        List.isPrefixOf_iff_prefix.mp hp
      obtain ⟨t, ht⟩ := hpre
      have hct : c :: rest = '\x60' :: '\x60' :: '\x60' :: t := by
        rw [← ht]; rfl
      have hc : c = '\x60' := by injection hct
      have hrest : rest = '\x60' :: '\x60' :: t := by injection hct
      subst hc; subst hrest
      rfl
    · simp only [splitOnFence, if_neg hp, Option.map_eq_some',
        Prod.mk.injEq] at h
      obtain ⟨⟨p', q'⟩, hsp, hpq1, hpq2⟩ := h
      have hrest := ih p' q' hsp
      rw [← hpq1, ← hpq2, hrest]
      rfl

/-- Completeness of the fence scanner: with no fence in the input, the
split finds nothing. -/
theorem splitOnFence_eq_none :
    ∀ (cs : List Char), ¬ fenceChars <:+: cs → splitOnFence cs = none := by
  intro cs
  induction cs with
  | nil => intro _; rfl
  | cons c rest ih =>
    intro h
    by_cases hp : fenceChars.isPrefixOf (c :: rest)
    · exfalso
      obtain ⟨t, ht⟩ := List.isPrefixOf_iff_prefix.mp hp
      exact h ⟨[], t, by simpa using ht⟩
    · have hnr : ¬ fenceChars <:+: rest := by
        rintro ⟨s, t, hst⟩
        exact h ⟨c :: s, t, by simp [← hst]⟩
      simp [splitOnFence, hp, ih hnr]

/-- A fenced block yields a fence occurrence. -/
theorem hasFencedBlock_infix_fence (s : String) (h : HasFencedBlock s) :
    fenceChars <:+: s.data := by
  obtain ⟨a, b, c, habc⟩ := h
  exact ⟨a, b ++ fenceChars ++ c, by simp [habc]⟩

/-- The construction-time failure bucket that the specification's error
taxonomy names `ConfigurationError`: the `AttributeError` (missing
required template attribute) or `TypeError` (attribute set to `None`)
raised by `BaseExpert.__init__`. -/
def configurationFailure : Except PyError BaseExpert → Bool
  | .error (.attributeError _) => true
  | .error .typeError => true
  | _ => false

/-- Concrete subclass with no backward task, used as a witness input. -/
def clsNoB : ExpertSubclass :=
  ⟨some (.vStr "R"), some (.vStr "F {x}"), none⟩

/-- Concrete subclass with a backward task, used as a witness input. -/
def clsWithB : ExpertSubclass :=
  ⟨some (.vStr "R"), some (.vStr "F"), some (.vStr "B {x}")⟩

/-- Concrete subclass missing its role description, used as a witness
input. -/
def clsNoRole : ExpertSubclass := ⟨none, some (.vStr "F"), none⟩

/-- The expert `clsNoB` constructs. -/
def expertNoB : BaseExpert :=
  ⟨"n", "d", "m", ⟨"m", 0⟩, "R\nF {x}", ⟨⟨"m", 0⟩, ⟨"R\nF {x}"⟩⟩, none, none⟩

/-- The expert `clsWithB` constructs. -/
def expertWithB : BaseExpert :=
  ⟨"n", "d", "m", ⟨"m", 0⟩, "R\nF", ⟨⟨"m", 0⟩, ⟨"R\nF"⟩⟩,
    some "R\nB {x}", some ⟨⟨"m", 0⟩, ⟨"R\nB {x}"⟩⟩⟩

/-- C1: on a successfully constructed unit, `backward` fails with
`CapabilityError` (dispatching nothing and leaving the unit unchanged)
when no backward pipeline exists; when a backward pipeline exists,
`backward` has the forward contract on that pipeline: it renders the
backward template with the inputs, dispatches exactly one request at the
construction model and temperature 0, and returns the raw response. -/
theorem c1_backward_contract (cls : ExpertSubclass) (n d m : String)
    (e : BaseExpert) (binds : List (String × String)) (backend : Backend)
    (bchain : LLMChain) (r : String)
    (hmk : mkBaseExpert cls n d m = .ok e) :
    (e.backward_chain = none →
      e.backward binds backend = ((.error .capabilityError, []), e)) ∧
    (e.backward_chain = some bchain →
      renderTemplate bchain.prompt.template binds = some r →
      e.backward binds backend =
        ((.ok (backend ⟨m, 0, r⟩), [⟨m, 0, r⟩]), e)) := by
  obtain ⟨role, fwd, hR, hF, hn, hd, hm, hllm, hfpt, hfc, hback⟩ :=
    mkBaseExpert_inv cls n d m e hmk
  constructor
  · intro hb
    simp [BaseExpert.backward, hb]
  · intro hb hr
    rcases hback with ⟨_, _, hbc⟩ | ⟨bwd, hB, hbpt, hbc⟩
    · rw [hbc] at hb
      exact absurd hb (by simp)
    · rw [hbc, Option.some.injEq] at hb
      subst hb
      simp only [] at hr
      simp [BaseExpert.backward, hbc, LLMChain.predict, hr]

/-- C1 witness: a unit without a backward template gets
`CapabilityError` from `backward`; a unit with one dispatches its
rendered backward prompt. -/
theorem c1_backward_contract_w :
    mkBaseExpert clsNoB "n" "d" "m" = .ok expertNoB ∧
    expertNoB.backward_chain = none ∧
    expertNoB.backward [("x", "1")] (fun _ => "resp") =
      ((.error .capabilityError, []), expertNoB) ∧
    mkBaseExpert clsWithB "n" "d" "m" = .ok expertWithB ∧
    expertWithB.backward_chain = some ⟨⟨"m", 0⟩, ⟨"R\nB {x}"⟩⟩ ∧
    renderTemplate "R\nB {x}" [("x", "1")] = some "R\nB 1" ∧
    expertWithB.backward [("x", "1")] (fun _ => "resp") =
      ((.ok "resp", [⟨"m", 0, "R\nB 1"⟩]), expertWithB) := by
  refine ⟨rfl, rfl, ?_, rfl, rfl, by decide, ?_⟩
  · exact (c1_backward_contract clsNoB "n" "d" "m" expertNoB [("x", "1")]
      (fun _ => "resp") ⟨⟨"m", 0⟩, ⟨""⟩⟩ "" rfl).1 rfl
  · exact (c1_backward_contract clsWithB "n" "d" "m" expertWithB [("x", "1")]
      (fun _ => "resp") ⟨⟨"m", 0⟩, ⟨"R\nB {x}"⟩⟩ "R\nB 1" rfl).2 rfl (by decide)

/-- C2: on a successfully constructed unit and inputs rendering the
forward template, `forward` dispatches exactly one request — at the
construction model, temperature 0 and the rendered prompt — and returns
the backend's raw response, leaving the unit unchanged. -/
theorem c2_forward_contract (cls : ExpertSubclass) (n d m : String)
    (e : BaseExpert) (binds : List (String × String)) (backend : Backend)
    (r : String) (hmk : mkBaseExpert cls n d m = .ok e)
    (hr : renderTemplate e.forward_prompt_template binds = some r) :
    e.forward binds backend = ((.ok (backend ⟨m, 0, r⟩), [⟨m, 0, r⟩]), e) := by
  obtain ⟨role, fwd, hR, hF, hn, hd, hm, hllm, hfpt, hfc, hback⟩ :=
    mkBaseExpert_inv cls n d m e hmk
  rw [hfpt] at hr
  simp [BaseExpert.forward, hfc, LLMChain.predict, hr]

/-- C2 witness: a concrete unit's `forward` on concrete inputs issues
the one rendered request and returns the stubbed response. -/
theorem c2_forward_contract_w :
    mkBaseExpert clsNoB "n" "d" "m" = .ok expertNoB ∧
    renderTemplate expertNoB.forward_prompt_template [("x", "1")] =
      some "R\nF 1" ∧
    expertNoB.forward [("x", "1")] (fun _ => "resp") =
      ((.ok "resp", [⟨"m", 0, "R\nF 1"⟩]), expertNoB) :=
  ⟨rfl, by decide,
    c2_forward_contract clsNoB "n" "d" "m" expertNoB [("x", "1")]
      (fun _ => "resp") "R\nF 1" rfl (by decide)⟩

/-- C3 (amended): construction fails — with the failures the
specification's taxonomy calls `ConfigurationError` — whenever the role
description or the forward task attribute is missing or `None`; it
succeeds whenever both are supplied as strings and the backward task
attribute, when present, is itself a string. -/
theorem c3_construction_requirements (cls : ExpertSubclass)
    (n d m role fwd : String) :
    ((cls.ROLE_DESCRIPTION = none ∨ cls.ROLE_DESCRIPTION = some .vNone ∨
        cls.FORWARD_TASK = none ∨ cls.FORWARD_TASK = some .vNone) →
      configurationFailure (mkBaseExpert cls n d m) = true) ∧
    (cls.ROLE_DESCRIPTION = some (.vStr role) →
      cls.FORWARD_TASK = some (.vStr fwd) →
      cls.BACKWARD_TASK ≠ some .vNone →
      (mkBaseExpert cls n d m).toOption.isSome = true) := by
  constructor
  · rintro (h | h | h | h)
    · simp [mkBaseExpert, h, configurationFailure]
    · simp [mkBaseExpert, h, configurationFailure]
    · rcases hR : cls.ROLE_DESCRIPTION with _ | vR
      · simp [mkBaseExpert, hR, configurationFailure]
      · rcases vR with _ | role'
        · simp [mkBaseExpert, hR, configurationFailure]
        · simp [mkBaseExpert, hR, h, configurationFailure]
    · rcases hR : cls.ROLE_DESCRIPTION with _ | vR
      · simp [mkBaseExpert, hR, configurationFailure]
      · rcases vR with _ | role'
        · simp [mkBaseExpert, hR, configurationFailure]
        · simp [mkBaseExpert, hR, h, configurationFailure]
  · intro hR hF hB
    rcases hBt : cls.BACKWARD_TASK with _ | vB
    · simp [mkBaseExpert, hR, hF, hBt, Except.toOption]
    · rcases vB with _ | bwd
      · exact absurd hBt hB
      · simp [mkBaseExpert, hR, hF, hBt, Except.toOption]

/-- C3 witness: a subclass missing `ROLE_DESCRIPTION` fails
construction; a subclass with string role and forward task (and no
backward task) constructs successfully. -/
theorem c3_construction_requirements_w :
    clsNoRole.ROLE_DESCRIPTION = none ∧
    configurationFailure (mkBaseExpert clsNoRole "n" "d" "m") = true ∧
    clsNoB.ROLE_DESCRIPTION = some (.vStr "R") ∧
    clsNoB.FORWARD_TASK = some (.vStr "F {x}") ∧
    clsNoB.BACKWARD_TASK ≠ some .vNone ∧
    (mkBaseExpert clsNoB "n" "d" "m").toOption.isSome = true := by
  refine ⟨rfl, ?_, rfl, rfl, by decide, ?_⟩
  · exact (c3_construction_requirements clsNoRole "n" "d" "m" "a" "b").1
      (Or.inl rfl)
  · exact (c3_construction_requirements clsNoB "n" "d" "m" "R" "F {x}").2
      rfl rfl (by decide)

/-- Subclass whose `BACKWARD_TASK` attribute is present but `None`:
`hasattr` sees it, so `__init__` concatenates `None` and fails even
though the role description and forward task are both supplied. -/
def clsBadBackward : ExpertSubclass :=
  ⟨some (.vStr "R"), some (.vStr "F"), some .vNone⟩

/-- C3 counterexample: with role description and forward task both
supplied as strings but `BACKWARD_TASK = None`, construction does not
succeed — it raises `TypeError` at the backward concatenation — refuting
the unqualified "construction succeeds when both are supplied". -/
theorem c3_construction_cex :
    clsBadBackward.ROLE_DESCRIPTION = some (.vStr "R") ∧
    clsBadBackward.FORWARD_TASK = some (.vStr "F") ∧
    mkBaseExpert clsBadBackward "n" "d" "m" = .error .typeError :=
  ⟨rfl, rfl, rfl⟩

/-- C4: the standard baseline returns the code-extracted substring of
the backend's response and the chain-of-thought baseline returns the raw
response; each dispatches exactly one request, at temperature 0, whose
prompt is its fixed template rendered with its inputs. -/
theorem c4_baseline_contracts
    (problem problem_description code_example model_name : String)
    (backend : Backend) :
    standard.solve problem model_name backend =
      (.ok (extract_code_from_string
          (backend ⟨model_name, 0, rStandard problem⟩)),
        [⟨model_name, 0, rStandard problem⟩]) ∧
    chain_of_thought.solve
        [("description", problem_description), ("code_example", code_example)]
        model_name backend =
      (.ok (backend ⟨model_name, 0, rCot problem_description code_example⟩),
        [⟨model_name, 0, rCot problem_description code_example⟩]) := by
  constructor
  · simp [standard.solve, LLMChain.predict, PromptTemplate.from_template,
      renderStandard_eq problem]
  · simp [chain_of_thought.solve, chain_of_thought.dictGet, lookupBind,
      LLMChain.predict, PromptTemplate.from_template,
      renderCot_eq problem_description code_example]

/-- C5: a successfully constructed unit's forward pipeline exists (it is
the compiled chain over the concatenated forward template at the
construction model and temperature 0); its backward pipeline exists
exactly when the subclass supplied a backward task attribute; and
`forward`, `backward` and the textual representation all leave the
unit's state unchanged. -/
theorem c5_pipeline_invariants (cls : ExpertSubclass) (n d m : String)
    (e : BaseExpert) (binds : List (String × String)) (backend : Backend)
    (hmk : mkBaseExpert cls n d m = .ok e) :
    e.forward_chain = ⟨⟨m, 0⟩, ⟨e.forward_prompt_template⟩⟩ ∧
    e.backward_chain.isSome = cls.BACKWARD_TASK.isSome ∧
    (e.forward binds backend).2 = e ∧
    (e.backward binds backend).2 = e ∧
    (e.str).2 = e := by
  obtain ⟨role, fwd, hR, hF, hn, hd, hm, hllm, hfpt, hfc, hback⟩ :=
    mkBaseExpert_inv cls n d m e hmk
  refine ⟨by rw [hfc, hfpt], ?_, rfl, ?_, rfl⟩
  · rcases hback with ⟨hB, _, hbc⟩ | ⟨bwd, hB, _, hbc⟩ <;> simp [hB, hbc]
  · cases hbc : e.backward_chain <;> simp [BaseExpert.backward, hbc]

/-- C5 witness: the invariants at a concrete unit carrying a backward
pipeline. -/
theorem c5_pipeline_invariants_w :
    mkBaseExpert clsWithB "n" "d" "m" = .ok expertWithB ∧
    (expertWithB.forward_chain =
        ⟨⟨"m", 0⟩, ⟨expertWithB.forward_prompt_template⟩⟩ ∧
      expertWithB.backward_chain.isSome = clsWithB.BACKWARD_TASK.isSome ∧
      (expertWithB.forward [("x", "1")] (fun _ => "resp")).2 = expertWithB ∧
      (expertWithB.backward [("x", "1")] (fun _ => "resp")).2 = expertWithB ∧
      (expertWithB.str).2 = expertWithB) :=
  ⟨rfl, c5_pipeline_invariants clsWithB "n" "d" "m" expertWithB
    [("x", "1")] (fun _ => "resp") rfl⟩

/-- C6: on a response containing no triple-backtick-delimited block,
code extraction returns the full response unchanged. -/
theorem c6_extract_fallback (s : String) (h : ¬ HasFencedBlock s) :
    extract_code_from_string s = s := by
  cases h1 : splitOnFence s.data with
  | none => simp [extract_code_from_string, h1]
  | some p1 =>
    obtain ⟨pre, afterOpen⟩ := p1
    cases h2 : splitOnFence afterOpen with
    | none => simp [extract_code_from_string, h1, h2]
    | some p2 =>
      exfalso
      obtain ⟨mid, post⟩ := p2
      have e1 := splitOnFence_sound s.data pre afterOpen h1
      have e2 := splitOnFence_sound afterOpen mid post h2
      exact h ⟨pre, mid, post, by rw [e1, e2]; simp [List.append_assoc]⟩

/-- C6 witness: a concrete fence-free response is returned unchanged. -/
theorem c6_extract_fallback_w :
    ¬ HasFencedBlock "print(2+2)" ∧
    extract_code_from_string "print(2+2)" = "print(2+2)" := by
  have hno : ¬ HasFencedBlock "print(2+2)" := by
    intro hb
    exact absurd (hasFencedBlock_infix_fence _ hb) (by decide)
  exact ⟨hno, c6_extract_fallback _ hno⟩

/-- C7: code extraction is idempotent on a bare code string with no
fences: both applications return the string itself. -/
theorem c7_extract_idempotent (x : String) (h : FenceFree x) :
    extract_code_from_string (extract_code_from_string x) =
      extract_code_from_string x := by
  have h0 : splitOnFence x.data = none := splitOnFence_eq_none x.data h
  have hx : extract_code_from_string x = x := by
    simp [extract_code_from_string, h0]
  simp only [hx]

/-- C7 witness: idempotence at a concrete bare code string. -/
theorem c7_extract_idempotent_w :
    FenceFree "def f(): return 2" ∧
    extract_code_from_string (extract_code_from_string "def f(): return 2") =
      extract_code_from_string "def f(): return 2" := by
  have hf : FenceFree "def f(): return 2" :=
    (by decide : ¬ fenceChars <:+: ("def f(): return 2").data)
  exact ⟨hf, c7_extract_idempotent _ hf⟩

/-- C8: the textual representation of a unit is its name, a colon and a
space, and its description. -/
theorem c8_text_repr (e : BaseExpert) :
    (e.str).1 = e.name ++ ": " ++ e.description := rfl

/-- C9: the standard template's placeholders are exactly `problem`, the
chain-of-thought template's placeholders are exactly
`problem_description` and `code_example`, and each solver's predict call
binds exactly those names. -/
theorem c9_template_placeholders :
    placeholders standard.prompt_template = ["problem"] ∧
    placeholders chain_of_thought.prompt_template =
      ["problem_description", "code_example"] ∧
    (∀ problem : String,
      (standard.solveBinds problem).map Prod.fst = ["problem"]) ∧
    (∀ problem_description code_example : String,
      (chain_of_thought.solveBinds problem_description code_example).map
        Prod.fst = ["problem_description", "code_example"]) := by
  refine ⟨by decide, by decide, fun _ => rfl, fun _ _ => rfl⟩

/-- C10: the chain-of-thought solver reads both `description` and
`code_example` from its input mapping before any backend client exists:
if `description` is absent it fails with `KeyError 'description'`, and
if `description` is present but `code_example` absent it fails with
`KeyError 'code_example'`; in both cases no request is dispatched. -/
theorem c10_cot_missing_keys (problem_data : List (String × String))
    (model_name v : String) (backend : Backend) :
    (lookupBind problem_data "description" = none →
      chain_of_thought.solve problem_data model_name backend =
        (.error (.keyError "description"), [])) ∧
    (lookupBind problem_data "description" = some v →
      lookupBind problem_data "code_example" = none →
      chain_of_thought.solve problem_data model_name backend =
        (.error (.keyError "code_example"), [])) := by
  constructor
  · intro h
    simp [chain_of_thought.solve, chain_of_thought.dictGet, h]
  · intro h1 h2
    simp [chain_of_thought.solve, chain_of_thought.dictGet, h1, h2]

/-- C10 witness: with an empty mapping the solver fails on
`description`; with only `description` present it fails on
`code_example`; neither run dispatches a request. -/
theorem c10_cot_missing_keys_w :
    lookupBind [] "description" = none ∧
    chain_of_thought.solve [] "m" (fun _ => "resp") =
      (.error (.keyError "description"), []) ∧
    lookupBind [("description", "D")] "description" = some "D" ∧
    lookupBind [("description", "D")] "code_example" = none ∧
    chain_of_thought.solve [("description", "D")] "m" (fun _ => "resp") =
      (.error (.keyError "code_example"), []) :=
  ⟨rfl,
    (c10_cot_missing_keys [] "m" "D" (fun _ => "resp")).1 rfl,
    by decide, by decide,
    (c10_cot_missing_keys [("description", "D")] "m" "D"
      (fun _ => "resp")).2 (by decide) (by decide)⟩
